import Mathlib

/-!
Shallow embedding of `src/frontend/src/CheckForm.tsx` (the vehicle-inspection
submission form) and proofs of the specification claims about it.

The component's logic is embedded as pure Lean functions:
* the checklist data model and `handleItemStatusChange`;
* `handleSubmit`, modelled as a function from the pre-submit form state and
  the outcome of the `api.createCheck` call to the constructed payload, the
  in-flight ("submitting") state, the final state, the emitted toasts, and
  whether the `onSuccess` callback was invoked;
* the JavaScript builtins the component calls, `String.prototype.trim` and
  `parseFloat`, modelled after their ECMAScript definitions.
-/

namespace VIS

/-- Modelled from the spec: `CheckItemKey` (declared in the repository's
`types.ts`, not present under `src/`): the closed, ordered enumeration
{TYRES, BRAKES, LIGHTS, OIL, COOLANT}. The same five keys appear literally
in `CHECK_ITEMS` in `CheckForm.tsx`. -/
inductive CheckItemKey where
  | TYRES
  | BRAKES
  | LIGHTS
  | OIL
  | COOLANT
deriving DecidableEq, Repr

/-- Modelled from the spec: the binary per-item status `"OK" | "FAIL"`
(declared in `types.ts`; the two literals appear in `CheckForm.tsx`). -/
inductive Status where
  | OK
  | FAIL
deriving DecidableEq, Repr

/-- Modelled from the spec: `CheckItem` = `{ key: CheckItemKey, status: "OK" | "FAIL" }`. -/
structure CheckItem where
  key : CheckItemKey
  status : Status
deriving DecidableEq, Repr

/-- Modelled from the spec: `ValidationErrorDetail` = `{ field: string, reason: string }`. -/
structure ValidationErrorDetail where
  field : String
  reason : String
deriving DecidableEq, Repr

/-- Modelled from the spec: the inner `error` object of an error response,
with its optional `details` array. `none` models an absent `details`
property; `some []` models a present but empty array. -/
structure ErrorField where
  details : Option (List ValidationErrorDetail)
deriving DecidableEq, Repr

/-- Modelled from the spec: the consumed error body shape
`{ error: { details?: [{ field, reason }] } }`. `none` models an absent or
non-object `error` property. -/
structure ErrorResponse where
  error : Option ErrorField
deriving DecidableEq, Repr

/-- Modelled from the spec: `ToastType` = `"success" | "error"` (declared in
`Toast.tsx`; both literals are passed by `CheckForm.tsx`). -/
inductive ToastType where
  | success
  | error
deriving DecidableEq, Repr

/-- The constant `CHECK_ITEMS: CheckItemKey[] = ["TYRES","BRAKES","LIGHTS","OIL","COOLANT"]`. -/
def CHECK_ITEMS : List CheckItemKey :=
  [.TYRES, .BRAKES, .LIGHTS, .OIL, .COOLANT]

/-- The initializer of the `items` state:
`CHECK_ITEMS.map((key) => ({ key, status: "OK" }))`. -/
def initialItems : List CheckItem :=
  CHECK_ITEMS.map (fun key => { key := key, status := .OK })

/-- The handler `handleItemStatusChange(key, status)`: the updater passed to `setItems`,
`prev.map((item) => (item.key === key ? { ...item, status } : item))`. -/
def handleItemStatusChange (prev : List CheckItem) (key : CheckItemKey)
    (status : Status) : List CheckItem :=
  prev.map (fun item => if item.key = key then { item with status := status } else item)

/-- A character in the ECMAScript `WhiteSpace ∪ LineTerminator` set, the set
stripped by `String.prototype.trim` and skipped by `parseFloat`. -/
def isJsWhitespace (c : Char) : Bool :=
  let n := c.toNat
  n = 0x9 || n = 0xA || n = 0xB || n = 0xC || n = 0xD || n = 0x20 ||
  n = 0xA0 || n = 0x1680 || (0x2000 ≤ n && n ≤ 0x200A) ||
  n = 0x2028 || n = 0x2029 || n = 0x202F || n = 0x205F || n = 0x3000 || n = 0xFEFF

/-- The builtin `String.prototype.trim`, modelled after ECMAScript: strips leading and
trailing whitespace and line terminators. -/
def jsTrim (s : String) : String :=
  String.mk (((s.toList.dropWhile isJsWhitespace).reverse.dropWhile isJsWhitespace).reverse)

/-- An ECMAScript number as produced by `parseFloat`: `NaN`, a signed
infinity (from an `Infinity` literal), or a finite value, kept exact as a
rational. -/
inductive JsNum where
  | nan
  | inf (neg : Bool)
  | num (q : ℚ)
deriving DecidableEq, Repr

/-- Numeric value of a list of decimal digit characters (most significant
first). -/
def digitsToNat (ds : List Char) : ℕ :=
  ds.foldl (fun a c => 10 * a + (c.toNat - 48)) 0

/-- The optional `ExponentPart` of a decimal literal: `e`/`E`, an optional
sign, and decimal digits. A malformed exponent part is simply not part of
the longest valid literal prefix, so it contributes exponent `0`. -/
def parseExponent (cs : List Char) : ℤ :=
  match cs with
  | c :: r =>
    if c = 'e' || c = 'E' then
      let signed : Bool × List Char :=
        match r with
        | '+' :: t => (false, t)
        | '-' :: t => (true, t)
        | _ => (false, r)
      let ds := signed.2.takeWhile (fun c => c.isDigit)
      if ds.isEmpty then 0
      else if signed.1 then -(digitsToNat ds : ℤ) else (digitsToNat ds : ℤ)
    else 0
  | [] => 0

/-- The body of a `StrDecimalLiteral` after the optional sign: `Infinity`,
or decimal digits with an optional fraction and exponent. Returns `NaN`
when no digit is found. -/
def parseUnsigned (neg : Bool) (cs : List Char) : JsNum :=
  if cs.take 8 = "Infinity".toList then .inf neg
  else
    let ds := cs.takeWhile (fun c => c.isDigit)
    let rest := cs.drop ds.length
    let frac : List Char × List Char :=
      match rest with
      | '.' :: r => (r.takeWhile (fun c => c.isDigit), r.dropWhile (fun c => c.isDigit))
      | _ => ([], rest)
    if ds.isEmpty && frac.1.isEmpty then .nan
    else
      let mant : ℚ := (digitsToNat ds : ℚ) + (digitsToNat frac.1 : ℚ) / 10 ^ frac.1.length
      let q : ℚ := mant * (10 : ℚ) ^ parseExponent frac.2
      .num (if neg then -q else q)

/-- The builtin `parseFloat`, modelled after ECMAScript: skip leading whitespace, read
an optional sign, then the longest `StrDecimalLiteral` prefix; `NaN` when
none exists. In particular `parseFloat("")` is `NaN`. -/
def jsParseFloat (s : String) : JsNum :=
  match s.toList.dropWhile isJsWhitespace with
  | '+' :: r => parseUnsigned false r
  | '-' :: r => parseUnsigned true r
  | cs => parseUnsigned false cs

/-- The mutable state of the `CheckForm` component that the submission
logic reads and writes (the `vehicles` list is read-only reference data and
does not appear in any claim's property). -/
structure FormState where
  selectedVehicle : String
  odometerKm : String
  note : String
  items : List CheckItem
  loading : Bool
  error : Option String
  validationErrors : List String
deriving DecidableEq, Repr

/-- The component state at mount: all text fields empty, checklist at
`initialItems`, not loading, no errors. -/
def initialState : FormState :=
  { selectedVehicle := ""
    odometerKm := ""
    note := ""
    items := initialItems
    loading := false
    error := none
    validationErrors := [] }

/-- The payload passed to `api.createCheck`. `note = none` models the field
being omitted entirely (the `...(note.trim() ? { note: note.trim() } : {})`
spread). -/
structure CheckPayload where
  vehicleId : String
  odometerKm : JsNum
  items : List CheckItem
  note : Option String
deriving DecidableEq, Repr

/-- The outcome of the awaited `api.createCheck` call: it resolves, or it
rejects with an error value (read as an `ErrorResponse`). -/
inductive ApiResult where
  | ok
  | err (e : ErrorResponse)
deriving DecidableEq, Repr

/-- Everything observable about one run of `handleSubmit`: the payload
sent, the state while the request is in flight, the state after the
handler finishes, the toasts shown, and whether `onSuccess` was called. -/
structure SubmitRun where
  payload : CheckPayload
  during : FormState
  final : FormState
  toasts : List (String × ToastType)
  onSuccessCalled : Bool
deriving DecidableEq, Repr

/-- The generic failure message of the catch branch. -/
def genericMessage : String := "Failed to submit check. Please try again."

/-- The mapping `(d) => `${d.field}: ${d.reason}`` applied to each detail. -/
def detailLine (d : ValidationErrorDetail) : String :=
  d.field ++ ": " ++ d.reason

/-- The handler `handleSubmit`, embedded as a function of the pre-submit state and the
API call's outcome. It first clears both error displays and sets
`loading`, builds the payload from the pre-submit field values, then: on
success resets every field and toasts success and calls `onSuccess`; on an
error whose `error?.details` is present (JavaScript truthiness: any array,
even empty, is truthy) records the mapped detail lines and toasts the
first of them (`details[0] ?? "Validation failed."`); otherwise records
and toasts the generic message. `finally`, `loading` is cleared. -/
def handleSubmit (s : FormState) (r : ApiResult) : SubmitRun :=
  let s1 : FormState := { s with error := none, validationErrors := [], loading := true }
  let payload : CheckPayload :=
    { vehicleId := s.selectedVehicle
      odometerKm := jsParseFloat s.odometerKm
      items := s.items
      note := if jsTrim s.note = "" then none else some (jsTrim s.note) }
  match r with
  | .ok =>
    { payload := payload
      during := s1
      final := { s1 with
                  selectedVehicle := ""
                  odometerKm := ""
                  note := ""
                  items := initialItems
                  loading := false }
      toasts := [("Inspection submitted successfully.", .success)]
      onSuccessCalled := true }
  | .err e =>
    match e.error.bind ErrorField.details with
    | some ds =>
      let details := ds.map detailLine
      { payload := payload
        during := s1
        final := { s1 with validationErrors := details, loading := false }
        toasts := [(details.headD "Validation failed.", .error)]
        onSuccessCalled := false }
    | none =>
      { payload := payload
        during := s1
        final := { s1 with error := some genericMessage, loading := false }
        toasts := [(genericMessage, .error)]
        onSuccessCalled := false }

/-- A sequence of checklist status changes applied in order through
`handleItemStatusChange`. -/
def applyStatusChanges (ops : List (CheckItemKey × Status))
    (items : List CheckItem) : List CheckItem :=
  ops.foldl (fun acc op => handleItemStatusChange acc op.1 op.2) items

/-! ## Helper lemmas shared by the claim theorems -/

/-- The payload sent by `handleSubmit` is built from the pre-submit field
values, whatever the outcome of the API call. -/
theorem handleSubmit_payload (s : FormState) (r : ApiResult) :
    (handleSubmit s r).payload =
      { vehicleId := s.selectedVehicle
        odometerKm := jsParseFloat s.odometerKm
        items := s.items
        note := if jsTrim s.note = "" then none else some (jsTrim s.note) } := by
  cases r with
  | ok => rfl
  | err e => cases h : e.error.bind ErrorField.details <;> simp [handleSubmit, h]

/-- Updating one key's status never changes the sequence of keys. -/
theorem handleItemStatusChange_keys (l : List CheckItem) (k : CheckItemKey)
    (st : Status) :
    (handleItemStatusChange l k st).map CheckItem.key = l.map CheckItem.key := by
  unfold handleItemStatusChange
  rw [List.map_map]
  apply List.map_congr_left
  intro a _
  by_cases h : a.key = k <;> simp [h]

/-- A whole sequence of status updates never changes the sequence of keys. -/
theorem applyStatusChanges_keys (ops : List (CheckItemKey × Status))
    (l : List CheckItem) :
    (applyStatusChanges ops l).map CheckItem.key = l.map CheckItem.key := by
  induction ops generalizing l with
  | nil => rfl
  | cons op t ih =>
    show (applyStatusChanges t (handleItemStatusChange l op.1 op.2)).map CheckItem.key
        = l.map CheckItem.key
    rw [ih, handleItemStatusChange_keys]

/-! ## Claim theorems -/

/-- C2: after a successful submission the checklist equals the initial
five-entry all-OK collection, the vehicle selection, odometer and note
fields equal their empty initial values, the success toast is emitted, and
the zero-argument `onSuccess` hook is invoked. -/
theorem C2_success_resets (s : FormState) :
    (handleSubmit s .ok).final.items = initialItems ∧
    initialItems = [⟨.TYRES, .OK⟩, ⟨.BRAKES, .OK⟩, ⟨.LIGHTS, .OK⟩, ⟨.OIL, .OK⟩,
      ⟨.COOLANT, .OK⟩] ∧
    (handleSubmit s .ok).final.selectedVehicle = "" ∧
    (handleSubmit s .ok).final.odometerKm = "" ∧
    (handleSubmit s .ok).final.note = "" ∧
    (handleSubmit s .ok).toasts = [("Inspection submitted successfully.", .success)] ∧
    (handleSubmit s .ok).onSuccessCalled = true :=
  ⟨rfl, rfl, rfl, rfl, rfl, rfl, rfl⟩

/-- C3: every failed submission (validation or generic) leaves the vehicle
selection, odometer text, note text and checklist items exactly equal to
their pre-submit values. -/
theorem C3_failure_preserves_fields (s : FormState) (e : ErrorResponse) :
    (handleSubmit s (.err e)).final.selectedVehicle = s.selectedVehicle ∧
    (handleSubmit s (.err e)).final.odometerKm = s.odometerKm ∧
    (handleSubmit s (.err e)).final.note = s.note ∧
    (handleSubmit s (.err e)).final.items = s.items := by
  cases h : e.error.bind ErrorField.details <;> simp [handleSubmit, h]

/-- C4: the `loading` flag is true while the API call is in flight and false
after the handler finishes, on every exit path (success, validation failure,
generic failure). -/
theorem C4_loading_flag (s : FormState) (r : ApiResult) :
    (handleSubmit s r).during.loading = true ∧
    (handleSubmit s r).final.loading = false := by
  cases r with
  | ok => exact ⟨rfl, rfl⟩
  | err e => cases h : e.error.bind ErrorField.details <;> simp [handleSubmit, h]

/-- C8: entering the submitting state clears both the generic error message
and the retained validation-error list before the request runs, so stale
errors from a prior attempt never persist into a fresh attempt. -/
theorem C8_clears_stale_errors (s : FormState) (r : ApiResult) :
    (handleSubmit s r).during.error = none ∧
    (handleSubmit s r).during.validationErrors = [] ∧
    (handleSubmit s r).during.loading = true := by
  cases r with
  | ok => exact ⟨rfl, rfl, rfl⟩
  | err e => cases h : e.error.bind ErrorField.details <;> simp [handleSubmit, h]

/-- C10: after any single submission resolves, the generic error message and
the validation-error list are never simultaneously populated. -/
theorem C10_error_displays_exclusive (s : FormState) (r : ApiResult) :
    (handleSubmit s r).final.error = none ∨
    (handleSubmit s r).final.validationErrors = [] := by
  cases r with
  | ok => exact .inl rfl
  | err e =>
    cases h : e.error.bind ErrorField.details with
    | some ds => exact .inl (by simp [handleSubmit, h])
    | none => exact .inr (by simp [handleSubmit, h])

/-- C1 (counterexample): the claim says an error is classified as
ValidationFailed exactly when its details list is non-empty, and as
GenericFailed (recording the single generic message) otherwise. But an
error carrying a present-yet-empty details array is truthy in JavaScript,
so the code takes the validation branch: the generic message is never
recorded and the toast is the fallback string, not the generic one. -/
theorem C1_counterexample :
    (ErrorResponse.mk (some (ErrorField.mk (some [])))).error.bind ErrorField.details
        = some [] ∧
    (handleSubmit initialState
        (.err (ErrorResponse.mk (some (ErrorField.mk (some [])))))).final.error = none ∧
    (handleSubmit initialState
        (.err (ErrorResponse.mk (some (ErrorField.mk (some [])))))).final.validationErrors
        = [] ∧
    (handleSubmit initialState
        (.err (ErrorResponse.mk (some (ErrorField.mk (some [])))))).toasts
        ≠ [(genericMessage, .error)] := by
  refine ⟨rfl, rfl, rfl, ?_⟩
  decide

/-- C1 (amended): an error is classified as ValidationFailed exactly when
its `error.details` list is present at all (even empty), recording the
mapped field-reason lines and toasting the first of them (falling back to
a fixed string when the list is empty); when `details` is absent it is
classified as GenericFailed, recording and toasting the single generic
message; no other classification outcome exists (`onSuccess` is never
invoked on an error). -/
theorem C1_error_classification (s : FormState) (e : ErrorResponse) :
    (∀ ds, e.error.bind ErrorField.details = some ds →
      (handleSubmit s (.err e)).final.validationErrors = ds.map detailLine ∧
      (handleSubmit s (.err e)).final.error = none ∧
      (handleSubmit s (.err e)).toasts
        = [((ds.map detailLine).headD "Validation failed.", .error)]) ∧
    (e.error.bind ErrorField.details = none →
      (handleSubmit s (.err e)).final.error = some genericMessage ∧
      (handleSubmit s (.err e)).final.validationErrors = [] ∧
      (handleSubmit s (.err e)).toasts = [(genericMessage, .error)]) ∧
    (handleSubmit s (.err e)).onSuccessCalled = false := by
  refine ⟨fun ds h => ?_, fun h => ?_, ?_⟩
  · exact ⟨by simp [handleSubmit, h], by simp [handleSubmit, h], by simp [handleSubmit, h]⟩
  · exact ⟨by simp [handleSubmit, h], by simp [handleSubmit, h], by simp [handleSubmit, h]⟩
  · cases h : e.error.bind ErrorField.details <;> simp [handleSubmit, h]

/-- Witness for C1 (amended) at the spec's own scenario: a single detail
`odometerKm: must be positive` is recorded verbatim. -/
theorem C1_error_classification_witness :
    (handleSubmit initialState
      (.err (ErrorResponse.mk (some (ErrorField.mk
        (some [ValidationErrorDetail.mk "odometerKm" "must be positive"])))))).final.validationErrors
      = ["odometerKm: must be positive"] :=
  ((C1_error_classification initialState
      (ErrorResponse.mk (some (ErrorField.mk
        (some [ValidationErrorDetail.mk "odometerKm" "must be positive"]))))).1
    [ValidationErrorDetail.mk "odometerKm" "must be positive"] rfl).1

/-- C5: the payload carries a `note` field exactly when the trimmed note
text is non-empty, in which case it equals the trimmed text; in particular
a note of three spaces is omitted and a padded `hi` is sent as `hi`. -/
theorem C5_note_trimming (s : FormState) (r : ApiResult) :
    ((handleSubmit s r).payload.note = none ↔ jsTrim s.note = "") ∧
    (∀ t, (handleSubmit s r).payload.note = some t → t = jsTrim s.note) ∧
    (handleSubmit { s with note := "   " } r).payload.note = none ∧
    (handleSubmit { s with note := "  hi  " } r).payload.note = some "hi" := by
  refine ⟨?_, ?_, ?_, ?_⟩
  · rw [handleSubmit_payload]
    by_cases h : jsTrim s.note = "" <;> simp [h]
  · intro t ht
    rw [handleSubmit_payload] at ht
    by_cases h : jsTrim s.note = "" <;> simp [h] at ht
    exact ht.symm
  · rw [handleSubmit_payload]
    rfl
  · rw [handleSubmit_payload]
    rfl

/-- Witness for C5 at a concrete state: a padded note is trimmed to the
empty string exactly when it is all whitespace. -/
theorem C5_note_trimming_witness :
    (handleSubmit { initialState with note := "   " } ApiResult.ok).payload.note = none :=
  (C5_note_trimming { initialState with note := "   " } ApiResult.ok).1.mpr rfl

/-- C6: the checklist starts as the five keys TYRES, BRAKES, LIGHTS, OIL,
COOLANT all at OK, and any sequence of status changes leaves exactly five
entries, one per key in the original order, with every status OK or FAIL. -/
theorem C6_checklist_closure (ops : List (CheckItemKey × Status)) :
    initialItems = [⟨.TYRES, .OK⟩, ⟨.BRAKES, .OK⟩, ⟨.LIGHTS, .OK⟩, ⟨.OIL, .OK⟩,
      ⟨.COOLANT, .OK⟩] ∧
    (applyStatusChanges ops initialItems).length = 5 ∧
    (applyStatusChanges ops initialItems).map CheckItem.key = CHECK_ITEMS ∧
    ∀ it ∈ applyStatusChanges ops initialItems,
      it.status = .OK ∨ it.status = .FAIL := by
  have hk : (applyStatusChanges ops initialItems).map CheckItem.key = CHECK_ITEMS := by
    rw [applyStatusChanges_keys]
    rfl
  refine ⟨rfl, ?_, hk, ?_⟩
  · have := congrArg List.length hk
    simpa using this
  · intro it _
    cases it.status
    · exact .inl rfl
    · exact .inr rfl

/-- Witness for C6 at a concrete sequence of status changes: after failing
BRAKES and then OIL, the key sequence is still the five-key enumeration. -/
theorem C6_checklist_closure_witness :
    (applyStatusChanges [(CheckItemKey.BRAKES, Status.FAIL), (CheckItemKey.OIL, Status.FAIL)]
        initialItems).map CheckItem.key = CHECK_ITEMS ∧
    ((⟨CheckItemKey.BRAKES, Status.FAIL⟩ : CheckItem).status = Status.OK ∨
      (⟨CheckItemKey.BRAKES, Status.FAIL⟩ : CheckItem).status = Status.FAIL) :=
  ⟨(C6_checklist_closure
      [(CheckItemKey.BRAKES, Status.FAIL), (CheckItemKey.OIL, Status.FAIL)]).2.2.1,
    (C6_checklist_closure
      [(CheckItemKey.BRAKES, Status.FAIL), (CheckItemKey.OIL, Status.FAIL)]).2.2.2
      ⟨CheckItemKey.BRAKES, Status.FAIL⟩ (by decide)⟩

/-- C7: a status change replaces only the status of entries whose key
matches, keeps every other entry identical, preserves length and ordering,
and is total (no error path): position by position, the result is the old
entry with its status replaced exactly when its key matches. -/
theorem C7_setStatus_pointwise (items : List CheckItem) (key : CheckItemKey)
    (st : Status) :
    (handleItemStatusChange items key st).length = items.length ∧
    ∀ i, (handleItemStatusChange items key st).get? i =
      (items.get? i).map
        (fun it => if it.key = key then { it with status := st } else it) := by
  constructor
  · simp [handleItemStatusChange]
  · intro i
    simp [handleItemStatusChange]

/-- C9: the payload takes `vehicleId` verbatim from the selection,
`odometerKm` as the floating-point parse of the odometer text with no range
or NaN check (the empty text parses to NaN and is sent anyway), and `items`
as the current checklist snapshot. -/
theorem C9_payload_construction (s : FormState) (r : ApiResult) :
    (handleSubmit s r).payload.vehicleId = s.selectedVehicle ∧
    (handleSubmit s r).payload.odometerKm = jsParseFloat s.odometerKm ∧
    (handleSubmit s r).payload.items = s.items ∧
    jsParseFloat "" = JsNum.nan := by
  rw [handleSubmit_payload]
  exact ⟨rfl, rfl, rfl, rfl⟩

end VIS
